import Mathlib

/-!
Shallow embedding of the "imbalancer" delegating load-balancing policy
(`src/core/load_balancing/imbalancer/imbalancer.cc`).

The file models:
* the JSON values consumed by `ImbalancerFactory::ParseLoadBalancingConfig`;
* the config model `ImbalancerConfig`;
* the stateful engine `ImbalancerLb` (fields `shutting_down_`,
  `child_policy_name_`, `child_policy_`) with its four operations
  `UpdateLocked`, `ExitIdleLocked`, `ResetBackoffLocked`, `ShutdownLocked`.

The LB-policy registry and the child policies are external collaborators:
they are parameters (`Env`) of the engine's transition functions.  Child
policy instances are identified by freshly allocated natural numbers so
that creation, destruction and forwarding can be observed in an event
trace emitted by each operation.
-/

namespace Imbalancer

/-- JSON values as in gRPC's `Json` class (`Json::Type` distinguishes
null/boolean/number/string/array/object; numbers are carried as strings). -/
inductive Json : Type where
  | null : Json
  | boolean : Bool → Json
  | number : String → Json
  | string : String → Json
  | array : List Json → Json
  | object : List (String × Json) → Json
deriving Repr

/-- Does `Json::Type` equal `kString`? -/
def Json.isString : Json → Bool
  | .string _ => true
  | _ => false

/-- Does `Json::Type` equal `kObject`? -/
def Json.isObject : Json → Bool
  | .object _ => true
  | _ => false

/-- Lookup of a key in a JSON object, as `json.object().find(key)`
(gRPC's `Json::Object` is a map, so keys are unique; we model it as the
first matching entry of the field list). -/
def jsonObjectFind (fields : List (String × Json)) (key : String) : Option Json :=
  match fields with
  | [] => none
  | (k, v) :: rest => if k = key then some v else jsonObjectFind rest key

/-- The `ImbalancerConfig` class: a child policy name together with the
child's validated configuration (of opaque type `C`, standing for
`RefCountedPtr<LoadBalancingPolicy::Config>`). -/
structure ImbalancerConfig (C : Type) : Type where
  child_policy_name : String
  child_config : C
deriving DecidableEq, Repr

/-- The part of `ImbalancerFactory::ParseLoadBalancingConfig` that picks
the child policy name: defaults to `"round_robin"`, overridden only when
the input is an object whose `"childPolicy"` field is a string
(imbalancer.cc lines 126, 128-132). -/
def parsedChildPolicyName (json : Json) : String :=
  match json with
  | .object fields =>
    match jsonObjectFind fields "childPolicy" with
    | some (.string s) => s
    | _ => "round_robin"
  | _ => "round_robin"

/-- The part of `ImbalancerFactory::ParseLoadBalancingConfig` that picks
the raw child config: defaults to `{}`, overridden only when the input is
an object whose `"childPolicyConfig"` field is itself an object
(imbalancer.cc lines 127, 133-136). -/
def parsedChildConfig (json : Json) : Json :=
  match json with
  | .object fields =>
    match jsonObjectFind fields "childPolicyConfig" with
    | some (.object fs) => .object fs
    | _ => .object []
  | _ => .object []

/-- The single-entry `LoadBalancingConfig` array
`[{child_policy: child_config}]` that the parser hands to the registry
(imbalancer.cc lines 139-144). -/
def submittedList (json : Json) : Json :=
  .array [.object [(parsedChildPolicyName json, parsedChildConfig json)]]

/-- `ImbalancerFactory::ParseLoadBalancingConfig` (imbalancer.cc lines
124-148).  The registry's `ParseLoadBalancingConfig` is the parameter
`registryParse`; on its success the factory wraps name and validated
child config into an `ImbalancerConfig`. -/
def ParseLoadBalancingConfig {C : Type} (registryParse : Json → Except String C)
    (json : Json) : Except String (ImbalancerConfig C) :=
  match registryParse (submittedList json) with
  | .error e => .error e
  | .ok c => .ok ⟨parsedChildPolicyName json, c⟩

/-- An `absl::Status` as returned by `UpdateLocked`: `OkStatus` or an
`InvalidArgumentError` with a message (the only kinds this file produces;
a child may return any status, modelled by the same type). -/
inductive Status : Type where
  | ok : Status
  | invalidArgument : String → Status
deriving DecidableEq, Repr

/-- The dynamic type of the `Config` reference arriving in
`UpdateArgs::config`.  `ImbalancerLb::UpdateLocked` performs an unchecked
`static_cast<ImbalancerConfig*>` on it: a config of another policy kind is
not detected but reinterpreted, modelled by reading its fields as if they
were `ImbalancerConfig`'s. -/
inductive DynConfig (C : Type) : Type where
  | imbalancer : ImbalancerConfig C → DynConfig C
  | other : String → C → DynConfig C
deriving DecidableEq, Repr

/-- The `static_cast<ImbalancerConfig*>(args.config.get())` of
imbalancer.cc line 58: no runtime kind check, an `other`-kind config's
fields are read as if it were an `ImbalancerConfig`. -/
def staticCastImbalancer {C : Type} : DynConfig C → ImbalancerConfig C
  | .imbalancer cfg => cfg
  | .other name cfg => ⟨name, cfg⟩

/-- `LoadBalancingPolicy::UpdateArgs`: the `config` reference (null when
`none`), the `ChannelArgs` (`args.args`, opaque type `A`) and the
remaining fields (addresses, resolution note, ...; opaque type `R`). -/
structure UpdateArgs (C A R : Type) : Type where
  config : Option (DynConfig C)
  args : A
  rest : R
deriving DecidableEq, Repr

/-- Observable actions on child policy instances (identified by the `Nat`
allocated at their creation), in the order the C++ performs them. -/
inductive Event (C A R : Type) : Type where
  | createChild : Nat → String → A → Event C A R
  | destroyChild : Nat → Event C A R
  | forwardUpdate : Nat → C → A → R → Event C A R
  | forwardExitIdle : Nat → Event C A R
  | forwardResetBackoff : Nat → Event C A R
deriving DecidableEq, Repr

/-- The external collaborators of the engine: the registry's
`CreateLoadBalancingPolicy` (which may return null, modelled by
`canCreate` being false) and the status each child instance returns from
its own `UpdateLocked`. -/
structure Env (C A R : Type) : Type where
  canCreate : String → A → Bool
  childUpdate : Nat → C → A → R → Status

/-- The mutable state of `ImbalancerLb`: `shutting_down_`,
`child_policy_name_`, `child_policy_` (the id of the stored child, if
any), plus a fresh-id allocator modelling distinct child identities. -/
structure LbState : Type where
  shutting_down : Bool
  child_policy_name : String
  child_policy : Option Nat
  next_child : Nat
deriving DecidableEq, Repr

/-- The state of a freshly constructed `ImbalancerLb`
(imbalancer.cc lines 52, 110-112). -/
def LbState.init : LbState := ⟨false, "", none, 0⟩

/-- Lines 63-74 of imbalancer.cc when the create-or-replace branch is
taken, followed by the forward.  The C++ statement
`child_policy_ = CreateChildPolicy(child_policy_name_, args.args);` first
runs the registry creation and only then lets the `OrphanablePtr`
move assignment destroy the previously stored child, so on success the
`createChild` event precedes the `destroyChild` event; on failure
(registry returned null) the old child is still destroyed and the call
errors out. -/
def replaceChildAndForward {C A R : Type} (env : Env C A R) (s : LbState)
    (config : ImbalancerConfig C) (args : UpdateArgs C A R) :
    Status × LbState × List (Event C A R) :=
  let name := config.child_policy_name
  let destroyOld : List (Event C A R) :=
    match s.child_policy with
    | some old => [.destroyChild old]
    | none => []
  if env.canCreate name args.args then
    let newId := s.next_child
    (env.childUpdate newId config.child_config args.args args.rest,
     { s with child_policy_name := name, child_policy := some newId,
              next_child := s.next_child + 1 },
     .createChild newId name args.args ::
       destroyOld ++
       [.forwardUpdate newId config.child_config args.args args.rest])
  else
    (.invalidArgument "imbalancer: failed to create child policy",
     { s with child_policy_name := name, child_policy := none },
     destroyOld)

/-- `ImbalancerLb::UpdateLocked` (imbalancer.cc lines 56-75): returns the
`absl::Status`, the new engine state, and the events performed. -/
def UpdateLocked {C A R : Type} (env : Env C A R) (s : LbState)
    (args : UpdateArgs C A R) : Status × LbState × List (Event C A R) :=
  if s.shutting_down then (.ok, s, [])
  else
    match args.config with
    | none => (.invalidArgument "imbalancer: missing config", s, [])
    | some dyn =>
      let config := staticCastImbalancer dyn
      match s.child_policy with
      | none => replaceChildAndForward env s config args
      | some old =>
        if s.child_policy_name = config.child_policy_name then
          (env.childUpdate old config.child_config args.args args.rest, s,
           [.forwardUpdate old config.child_config args.args args.rest])
        else
          replaceChildAndForward env s config args

/-- `ImbalancerLb::ExitIdleLocked` (imbalancer.cc lines 77-79): forwards
to the child if present; the engine state is unchanged. -/
def ExitIdleLocked {C A R : Type} (s : LbState) : List (Event C A R) :=
  match s.child_policy with
  | some id => [.forwardExitIdle id]
  | none => []

/-- `ImbalancerLb::ResetBackoffLocked` (imbalancer.cc lines 81-83). -/
def ResetBackoffLocked {C A R : Type} (s : LbState) : List (Event C A R) :=
  match s.child_policy with
  | some id => [.forwardResetBackoff id]
  | none => []

/-- `ImbalancerLb::ShutdownLocked` (imbalancer.cc lines 105-108): sets
`shutting_down_` and resets `child_policy_` (destroying the stored child
if present); `child_policy_name_` is not cleared. -/
def ShutdownLocked {C A R : Type} (s : LbState) :
    LbState × List (Event C A R) :=
  ({ s with shutting_down := true, child_policy := none },
   match s.child_policy with
   | some id => [.destroyChild id]
   | none => [])

/-- One of the four serialized operations on the engine. -/
inductive Op (C A R : Type) : Type where
  | update : UpdateArgs C A R → Op C A R
  | exitIdle : Op C A R
  | resetBackoff : Op C A R
  | shutdown : Op C A R
deriving DecidableEq, Repr

/-- The state transition of a single operation (its status, when any, is
dropped; the events are kept). -/
def step {C A R : Type} (env : Env C A R) (s : LbState) :
    Op C A R → LbState × List (Event C A R)
  | .update args =>
    let r := UpdateLocked env s args
    (r.2.1, r.2.2)
  | .exitIdle => (s, ExitIdleLocked s)
  | .resetBackoff => (s, ResetBackoffLocked s)
  | .shutdown => ShutdownLocked s

/-- The state after running a sequence of operations (the work serializer
runs them one at a time, FIFO). -/
def runState {C A R : Type} (env : Env C A R) (s : LbState) :
    List (Op C A R) → LbState
  | [] => s
  | op :: ops => runState env (step env s op).1 ops

/-- Is the event a child destruction? -/
def Event.isDestroy {C A R : Type} : Event C A R → Bool
  | .destroyChild _ => true
  | _ => false

/-- Is the event a child creation? -/
def Event.isCreate {C A R : Type} : Event C A R → Bool
  | .createChild _ _ _ => true
  | _ => false

/-- Is the status an `absl::InvalidArgumentError`? -/
def Status.isInvalidArgument : Status → Bool
  | .invalidArgument _ => true
  | .ok => false

/-- The ordering the spec asserts for a replacement: within the trace,
every child destruction occurs strictly before every child creation. -/
def destroyBeforeCreate {C A R : Type} (es : List (Event C A R)) : Prop :=
  ∀ i j (hi : i < es.length) (hj : j < es.length),
    (es.get ⟨i, hi⟩).isDestroy = true → (es.get ⟨j, hj⟩).isCreate = true → i < j

/-- The set (as a list) of child ids alive after a trace, starting from
the given live list: creation adds an id, destruction removes it. -/
def liveAfter {C A R : Type} : List (Event C A R) → List Nat → List Nat
  | [], live => live
  | .createChild id _ _ :: es, live => liveAfter es (id :: live)
  | .destroyChild id :: es, live => liveAfter es (live.erase id)
  | _ :: es, live => liveAfter es live

/-- Every config carried by an update operation names a non-empty child
policy (after the unchecked cast), as any config produced by a registered
policy factory does. -/
def Op.configNamesNonempty {C A R : Type} : Op C A R → Prop
  | .update args =>
    match args.config with
    | some dyn => (staticCastImbalancer dyn).child_policy_name ≠ ""
    | none => True
  | .exitIdle => True
  | .resetBackoff => True
  | .shutdown => True

/-- Concrete environment whose registry always creates children and whose
children return `OkStatus` from their `UpdateLocked`. -/
def envYes : Env Nat Nat Nat :=
  ⟨fun _ _ => true, fun _ _ _ _ => .ok⟩

/-- Concrete environment whose registry always fails to create a child
(returns null). -/
def envNo : Env Nat Nat Nat :=
  ⟨fun _ _ => false, fun _ _ _ _ => .ok⟩

/-- Concrete update naming child policy `"a"`. -/
def exArgsA : UpdateArgs Nat Nat Nat := ⟨some (.imbalancer ⟨"a", 3⟩), 0, 0⟩

/-- Second concrete update also naming `"a"`, with different payloads. -/
def exArgsA2 : UpdateArgs Nat Nat Nat := ⟨some (.imbalancer ⟨"a", 4⟩), 1, 2⟩

/-- Concrete update naming child policy `"b"`. -/
def exArgsB : UpdateArgs Nat Nat Nat := ⟨some (.imbalancer ⟨"b", 7⟩), 0, 0⟩

/-- Concrete update whose non-null config is of another policy's kind. -/
def exArgsOther : UpdateArgs Nat Nat Nat := ⟨some (.other "b" 9), 0, 0⟩

/-- Reachable state in which the `"a"` child (id 0) is running. -/
def exStateA : LbState := (UpdateLocked envYes LbState.init exArgsA).2.1

/-- Helper: once the engine is shut down (flag set, no child), every
further operation preserves both facts. -/
theorem shutdown_state_preserved {C A R : Type} (env : Env C A R) :
    ∀ (ops : List (Op C A R)) (s : LbState),
      s.shutting_down = true → s.child_policy = none →
      (runState env s ops).shutting_down = true ∧
        (runState env s ops).child_policy = none := by
  intro ops
  induction ops with
  | nil => intro s h1 h2; exact ⟨h1, h2⟩
  | cons op ops ih =>
    intro s h1 h2
    have hstep : (step env s op).1.shutting_down = true ∧
        (step env s op).1.child_policy = none := by
      cases op with
      | update args => simp [step, UpdateLocked, h1, h2]
      | exitIdle => exact ⟨h1, h2⟩
      | resetBackoff => exact ⟨h1, h2⟩
      | shutdown => simp [step, ShutdownLocked]
    exact ih _ hstep.1 hstep.2

/-- C10: the shutting-down check in `UpdateLocked` precedes the config
check: after shutdown every `UpdateLocked` returns success (even with a
null config) and changes nothing, and the "missing config" error can only
be produced while the engine is not shutting down. -/
theorem C10_shutdown_check_precedes_config_check {C A R : Type}
    (env : Env C A R) (s : LbState) (args : UpdateArgs C A R) :
    (s.shutting_down = true → UpdateLocked env s args = (.ok, s, [])) ∧
    ((UpdateLocked env s args).1 = .invalidArgument "imbalancer: missing config" →
      s.shutting_down = false) := by
  constructor
  · intro h
    simp [UpdateLocked, h]
  · intro h
    cases hsd : s.shutting_down with
    | false => rfl
    | true => simp [UpdateLocked, hsd] at h

/-- C10 witness: with the flag set, `UpdateLocked` on a null config
returns `OkStatus`; and a state actually producing the missing-config
error is not shutting down. -/
theorem C10_witness :
    UpdateLocked envYes ⟨true, "", none, 0⟩ ⟨none, 0, 0⟩ =
      (.ok, (⟨true, "", none, 0⟩ : LbState), []) ∧
    LbState.init.shutting_down = false :=
  ⟨(C10_shutdown_check_precedes_config_check envYes ⟨true, "", none, 0⟩ ⟨none, 0, 0⟩).1 rfl,
   (C10_shutdown_check_precedes_config_check envYes LbState.init ⟨none, 0, 0⟩).2 rfl⟩

/-- C3 counterexample: a non-null config of the wrong dynamic kind is not
rejected: `static_cast` is unchecked, so the call proceeds and here
returns `OkStatus`, not an invalid-configuration error. -/
theorem C3_counterexample :
    (UpdateLocked envYes LbState.init exArgsOther).1.isInvalidArgument = false ∧
    (UpdateLocked envYes LbState.init exArgsOther).1 = Status.ok := by
  constructor <;> rfl

/-- C3 (amended): when not shutting down, an absent (null) config makes
`UpdateLocked` return the "imbalancer: missing config" invalid-argument
error and leave the state unchanged; a non-null config of the wrong kind
is not detected (it is cast unchecked and processed normally). -/
theorem C3_missing_config_error {C A R : Type} (env : Env C A R)
    (s : LbState) (args : UpdateArgs C A R)
    (hshut : s.shutting_down = false) (hnone : args.config = none) :
    UpdateLocked env s args =
      (.invalidArgument "imbalancer: missing config", s, []) := by
  simp [UpdateLocked, hshut, hnone]

/-- C3 witness: the missing-config error at a concrete input. -/
theorem C3_missing_config_witness :
    UpdateLocked envYes LbState.init ⟨none, 0, 0⟩ =
      (.invalidArgument "imbalancer: missing config", LbState.init, []) :=
  C3_missing_config_error envYes LbState.init ⟨none, 0, 0⟩ rfl rfl

/-- C4: shutdown is terminal: after `ShutdownLocked`, however many
further operations run, the flag stays set and no child is ever present;
every subsequent `UpdateLocked` is a state-preserving no-op returning
success with no events, and `ExitIdleLocked`/`ResetBackoffLocked` forward
nothing. -/
theorem C4_shutdown_terminal {C A R : Type} (env : Env C A R) (s : LbState)
    (ops : List (Op C A R)) :
    (runState env (ShutdownLocked (C := C) (A := A) (R := R) s).1 ops).shutting_down = true ∧
    (runState env (ShutdownLocked (C := C) (A := A) (R := R) s).1 ops).child_policy = none ∧
    (∀ args : UpdateArgs C A R,
      UpdateLocked env (runState env (ShutdownLocked (C := C) (A := A) (R := R) s).1 ops) args =
        (.ok, runState env (ShutdownLocked (C := C) (A := A) (R := R) s).1 ops, [])) ∧
    ExitIdleLocked (runState env (ShutdownLocked (C := C) (A := A) (R := R) s).1 ops) =
      ([] : List (Event C A R)) ∧
    ResetBackoffLocked (runState env (ShutdownLocked (C := C) (A := A) (R := R) s).1 ops) =
      ([] : List (Event C A R)) := by
  obtain ⟨h1, h2⟩ :=
    shutdown_state_preserved env ops (ShutdownLocked (C := C) (A := A) (R := R) s).1
      (by simp [ShutdownLocked]) (by simp [ShutdownLocked])
  refine ⟨h1, h2, ?_, ?_, ?_⟩
  · intro args
    simp [UpdateLocked, h1]
  · simp [ExitIdleLocked, h2]
  · simp [ResetBackoffLocked, h2]

/-- C4 witness: a concrete `UpdateLocked` after shutdown (and one more
intervening operation) is a state-preserving no-op. -/
theorem C4_witness :
    UpdateLocked envYes
      (runState envYes (ShutdownLocked (C := Nat) (A := Nat) (R := Nat) exStateA).1
        [Op.update exArgsB]) exArgsA =
      (.ok,
       runState envYes (ShutdownLocked (C := Nat) (A := Nat) (R := Nat) exStateA).1
         [Op.update exArgsB], []) :=
  (C4_shutdown_terminal envYes exStateA [Op.update exArgsB]).2.2.1 exArgsA

/-- C5: when not shutting down, with a valid config, if a child must be
created or replaced and the registry returns null, `UpdateLocked` returns
the "imbalancer: failed to create child policy" error and afterwards no
child is stored. -/
theorem C5_create_failure_no_child {C A R : Type} (env : Env C A R)
    (s : LbState) (args : UpdateArgs C A R) (cfg : ImbalancerConfig C)
    (hshut : s.shutting_down = false)
    (hcfg : args.config = some (.imbalancer cfg))
    (hneed : s.child_policy = none ∨ s.child_policy_name ≠ cfg.child_policy_name)
    (hfail : env.canCreate cfg.child_policy_name args.args = false) :
    (UpdateLocked env s args).1 =
      .invalidArgument "imbalancer: failed to create child policy" ∧
    (UpdateLocked env s args).2.1.child_policy = none := by
  rcases hc : s.child_policy with _ | old
  · simp [UpdateLocked, hshut, hcfg, hc, staticCastImbalancer,
      replaceChildAndForward, hfail]
  · have hname : s.child_policy_name ≠ cfg.child_policy_name := by
      rcases hneed with h | h
      · rw [hc] at h; exact absurd h (by simp)
      · exact h
    simp [UpdateLocked, hshut, hcfg, hc, staticCastImbalancer,
      replaceChildAndForward, hfail, hname]

/-- C5 witness: a failing registry at a concrete input. -/
theorem C5_witness :
    (UpdateLocked envNo LbState.init exArgsB).1 =
      .invalidArgument "imbalancer: failed to create child policy" ∧
    (UpdateLocked envNo LbState.init exArgsB).2.1.child_policy = none :=
  C5_create_failure_no_child envNo LbState.init exArgsB ⟨"b", 7⟩
    rfl rfl (Or.inl rfl) rfl

/-- C6: on the successful path (not shutting down, valid config, child
present under the same name or successfully created), `UpdateLocked`
forwards the update to the child with `ChannelArgs` and the remaining
update fields unchanged and the outer config replaced by the config's
validated child configuration, and returns the child's status
unchanged. -/
theorem C6_forward_and_passthrough {C A R : Type} (env : Env C A R)
    (s : LbState) (args : UpdateArgs C A R) (cfg : ImbalancerConfig C)
    (hshut : s.shutting_down = false)
    (hcfg : args.config = some (.imbalancer cfg))
    (hok : (s.child_policy ≠ none ∧ s.child_policy_name = cfg.child_policy_name) ∨
           env.canCreate cfg.child_policy_name args.args = true) :
    ∃ id, (UpdateLocked env s args).2.1.child_policy = some id ∧
      (UpdateLocked env s args).2.2.getLast? =
        some (.forwardUpdate id cfg.child_config args.args args.rest) ∧
      (UpdateLocked env s args).1 =
        env.childUpdate id cfg.child_config args.args args.rest := by
  rcases hc : s.child_policy with _ | old
  · have hcreate : env.canCreate cfg.child_policy_name args.args = true := by
      rcases hok with ⟨h, _⟩ | h
      · exact absurd hc h
      · exact h
    refine ⟨s.next_child, ?_⟩
    simp [UpdateLocked, hshut, hcfg, hc, staticCastImbalancer,
      replaceChildAndForward, hcreate]
  · by_cases hname : s.child_policy_name = cfg.child_policy_name
    · refine ⟨old, ?_⟩
      simp [UpdateLocked, hshut, hcfg, hc, staticCastImbalancer, hname]
    · have hcreate : env.canCreate cfg.child_policy_name args.args = true := by
        rcases hok with ⟨_, h⟩ | h
        · exact absurd h hname
        · exact h
      refine ⟨s.next_child, ?_⟩
      simp [UpdateLocked, hshut, hcfg, hc, staticCastImbalancer, hname,
        replaceChildAndForward, hcreate]

/-- C6 witness: on a concrete successful path the returned status is the
child's (here `OkStatus`). -/
theorem C6_witness :
    (UpdateLocked envYes LbState.init exArgsA).1 = Status.ok := by
  obtain ⟨id, h1, h2, h3⟩ :=
    C6_forward_and_passthrough envYes LbState.init exArgsA ⟨"a", 3⟩
      rfl rfl (Or.inr rfl)
  exact h3.trans rfl

/-- C7: on the empty object (and on any non-object input) the parser uses
the default name `"round_robin"` and the empty object as raw child
config, submits exactly the single-entry round_robin list to the registry
parser, and on registry success produces a config holding that name and
the registry's validated child configuration. -/
theorem C7_default_parse {C : Type} (registryParse : Json → Except String C)
    (j : Json) (h : j = Json.object [] ∨ j.isObject = false) :
    parsedChildPolicyName j = "round_robin" ∧
    parsedChildConfig j = Json.object [] ∧
    submittedList j =
      Json.array [Json.object [("round_robin", Json.object [])]] ∧
    ∀ c, registryParse (submittedList j) = .ok c →
      ParseLoadBalancingConfig registryParse j = .ok ⟨"round_robin", c⟩ := by
  have hname : parsedChildPolicyName j = "round_robin" := by
    rcases h with h | h
    · subst h; rfl
    · cases j <;> simp_all [parsedChildPolicyName, Json.isObject]
  have hcfgd : parsedChildConfig j = Json.object [] := by
    rcases h with h | h
    · subst h; rfl
    · cases j <;> simp_all [parsedChildConfig, Json.isObject]
  refine ⟨hname, hcfgd, ?_, ?_⟩
  · simp [submittedList, hname, hcfgd]
  · intro c hc
    simp [ParseLoadBalancingConfig, hc, hname]

/-- C7 witness: parsing the empty object with a registry that validates
everything yields the default config. -/
theorem C7_witness :
    ParseLoadBalancingConfig (fun _ => Except.ok (0 : Nat)) (Json.object []) =
      Except.ok ⟨"round_robin", 0⟩ :=
  (C7_default_parse (fun _ => Except.ok 0) (Json.object []) (Or.inl rfl)).2.2.2 0 rfl

/-- C8: a present but non-string `"childPolicy"` field is ignored in
favour of the default name, a present but non-object
`"childPolicyConfig"` field is ignored in favour of the empty object, and
neither causes the parser itself to fail: whenever the registry accepts
the submitted list the parse succeeds. -/
theorem C8_malformed_fields_tolerated {C : Type}
    (registryParse : Json → Except String C)
    (fields : List (String × Json)) :
    (∀ v, jsonObjectFind fields "childPolicy" = some v → v.isString = false →
      parsedChildPolicyName (.object fields) = "round_robin") ∧
    (∀ v, jsonObjectFind fields "childPolicyConfig" = some v → v.isObject = false →
      parsedChildConfig (.object fields) = .object []) ∧
    (∀ c, registryParse (submittedList (.object fields)) = .ok c →
      ParseLoadBalancingConfig registryParse (.object fields) =
        .ok ⟨parsedChildPolicyName (.object fields), c⟩) := by
  refine ⟨?_, ?_, ?_⟩
  · intro v hv hstr
    cases v <;> simp_all [parsedChildPolicyName, Json.isString]
  · intro v hv hobj
    cases v <;> simp_all [parsedChildConfig, Json.isObject]
  · intro c hc
    simp [ParseLoadBalancingConfig, hc]

/-- C8 witness: `childPolicy: 123` falls back to the default name and
`childPolicyConfig: "x"` falls back to the empty object. -/
theorem C8_witness :
    parsedChildPolicyName (Json.object [("childPolicy", Json.number "123")]) =
      "round_robin" ∧
    parsedChildConfig (Json.object [("childPolicyConfig", Json.string "x")]) =
      Json.object [] :=
  ⟨(C8_malformed_fields_tolerated (fun _ => Except.ok (0 : Nat))
      [("childPolicy", Json.number "123")]).1 (Json.number "123") rfl rfl,
   (C8_malformed_fields_tolerated (fun _ => Except.ok (0 : Nat))
      [("childPolicyConfig", Json.string "x")]).2.1 (Json.string "x") rfl rfl⟩

/-- C9: two consecutive updates naming the same child policy: if a child
exists after the first call, the first call forwarded to it, and the
second call performs no destruction and no creation: its whole trace is a
single forward to the identical child instance, the state is unchanged,
and the child's status is returned. -/
theorem C9_same_name_same_child {C A R : Type} (env : Env C A R)
    (s : LbState) (args1 args2 : UpdateArgs C A R)
    (cfg1 cfg2 : ImbalancerConfig C) (id : Nat)
    (hshut : s.shutting_down = false)
    (h1 : args1.config = some (.imbalancer cfg1))
    (h2 : args2.config = some (.imbalancer cfg2))
    (hsame : cfg2.child_policy_name = cfg1.child_policy_name)
    (hchild : (UpdateLocked env s args1).2.1.child_policy = some id) :
    (UpdateLocked env s args1).2.2.getLast? =
      some (.forwardUpdate id cfg1.child_config args1.args args1.rest) ∧
    UpdateLocked env (UpdateLocked env s args1).2.1 args2 =
      (env.childUpdate id cfg2.child_config args2.args args2.rest,
       (UpdateLocked env s args1).2.1,
       [.forwardUpdate id cfg2.child_config args2.args args2.rest]) := by
  rcases hc : s.child_policy with _ | old
  · cases hcr : env.canCreate cfg1.child_policy_name args1.args
    · exfalso
      rw [show (UpdateLocked env s args1).2.1.child_policy = none by
        simp [UpdateLocked, hshut, h1, hc, staticCastImbalancer,
          replaceChildAndForward, hcr]] at hchild
      exact Option.noConfusion hchild
    · have hid : id = s.next_child := by
        rw [show (UpdateLocked env s args1).2.1.child_policy = some s.next_child by
          simp [UpdateLocked, hshut, h1, hc, staticCastImbalancer,
            replaceChildAndForward, hcr]] at hchild
        exact (Option.some_injective _ hchild).symm
      subst hid
      constructor
      · simp [UpdateLocked, hshut, h1, hc, staticCastImbalancer,
          replaceChildAndForward, hcr]
      · simp [UpdateLocked, hshut, h1, h2, hc, staticCastImbalancer,
          replaceChildAndForward, hcr, hsame]
  · by_cases hname : s.child_policy_name = cfg1.child_policy_name
    · have hid : id = old := by
        rw [show (UpdateLocked env s args1).2.1.child_policy = some old by
          simp [UpdateLocked, hshut, h1, hc, staticCastImbalancer, hname]] at hchild
        exact (Option.some_injective _ hchild).symm
      subst hid
      constructor
      · simp [UpdateLocked, hshut, h1, hc, staticCastImbalancer, hname]
      · simp [UpdateLocked, hshut, h1, h2, hc, staticCastImbalancer, hname, hsame]
    · cases hcr : env.canCreate cfg1.child_policy_name args1.args
      · exfalso
        rw [show (UpdateLocked env s args1).2.1.child_policy = none by
          simp [UpdateLocked, hshut, h1, hc, staticCastImbalancer, hname,
            replaceChildAndForward, hcr]] at hchild
        exact Option.noConfusion hchild
      · have hid : id = s.next_child := by
          rw [show (UpdateLocked env s args1).2.1.child_policy = some s.next_child by
            simp [UpdateLocked, hshut, h1, hc, staticCastImbalancer, hname,
              replaceChildAndForward, hcr]] at hchild
          exact (Option.some_injective _ hchild).symm
        subst hid
        constructor
        · simp [UpdateLocked, hshut, h1, hc, staticCastImbalancer, hname,
            replaceChildAndForward, hcr]
        · simp [UpdateLocked, hshut, h1, h2, hc, staticCastImbalancer, hname,
            replaceChildAndForward, hcr, hsame]

/-- C9 witness: two concrete updates naming `"a"`: the same instance
(id 0) receives both forwards and the second call is a pure forward. -/
theorem C9_witness :
    (UpdateLocked envYes LbState.init exArgsA).2.2.getLast? =
      some (.forwardUpdate 0 3 exArgsA.args exArgsA.rest) ∧
    UpdateLocked envYes (UpdateLocked envYes LbState.init exArgsA).2.1 exArgsA2 =
      (envYes.childUpdate 0 4 exArgsA2.args exArgsA2.rest,
       (UpdateLocked envYes LbState.init exArgsA).2.1,
       [.forwardUpdate 0 4 exArgsA2.args exArgsA2.rest]) :=
  C9_same_name_same_child envYes LbState.init exArgsA exArgsA2
    ⟨"a", 3⟩ ⟨"a", 4⟩ 0 rfl rfl rfl rfl rfl

/-- C1 counterexample: in the reachable state where child `"a"` (id 0) is
running, an update naming `"b"` creates the new child (id 1) before
destroying the old one: the trace is create-destroy-forward, the
destroy-before-create ordering asserted by the claim fails, and right
after the creation two children are live at once. -/
theorem C1_counterexample :
    exStateA.child_policy = some 0 ∧
    exStateA.child_policy_name = "a" ∧
    (UpdateLocked envYes exStateA exArgsB).2.2 =
      [.createChild 1 "b" 0, .destroyChild 0, .forwardUpdate 1 7 0 0] ∧
    ¬ destroyBeforeCreate (UpdateLocked envYes exStateA exArgsB).2.2 ∧
    (liveAfter ((UpdateLocked envYes exStateA exArgsB).2.2.take 1) [0]).length = 2 := by
  refine ⟨rfl, rfl, rfl, ?_, rfl⟩
  intro h
  have h10 := h 1 0 (by decide) (by decide) (by decide) (by decide)
  exact absurd h10 (by decide)

/-- C1 (amended): when `UpdateLocked` replaces child A with child B, the
engine stores at most one child, but the `OrphanablePtr` assignment
creates the B-child first and destroys the A-child immediately
afterwards — so the two lifetimes briefly overlap — and only then
forwards the update; at the end exactly the new child is live and
stored. -/
theorem C1_replacement_creates_before_destroying {C A R : Type}
    (env : Env C A R) (s : LbState) (args : UpdateArgs C A R)
    (cfg : ImbalancerConfig C) (old : Nat)
    (hshut : s.shutting_down = false)
    (hcfg : args.config = some (.imbalancer cfg))
    (hold : s.child_policy = some old)
    (hdiff : s.child_policy_name ≠ cfg.child_policy_name)
    (hcreate : env.canCreate cfg.child_policy_name args.args = true) :
    (UpdateLocked env s args).2.2 =
      [.createChild s.next_child cfg.child_policy_name args.args,
       .destroyChild old,
       .forwardUpdate s.next_child cfg.child_config args.args args.rest] ∧
    (UpdateLocked env s args).2.1.child_policy = some s.next_child ∧
    liveAfter (UpdateLocked env s args).2.2 [old] = [s.next_child] := by
  have htrace : (UpdateLocked env s args).2.2 =
      [.createChild s.next_child cfg.child_policy_name args.args,
       .destroyChild old,
       .forwardUpdate s.next_child cfg.child_config args.args args.rest] := by
    simp [UpdateLocked, hshut, hcfg, hold, staticCastImbalancer, hdiff,
      replaceChildAndForward, hcreate]
  refine ⟨htrace, ?_, ?_⟩
  · simp [UpdateLocked, hshut, hcfg, hold, staticCastImbalancer, hdiff,
      replaceChildAndForward, hcreate]
  · rw [htrace]
    cases h : s.next_child == old with
    | false => simp [liveAfter, List.erase, h]
    | true =>
      have heq : s.next_child = old := by simpa using h
      simp [liveAfter, List.erase, h, heq]

/-- C1 witness: the amended ordering at the concrete replacement. -/
theorem C1_witness :
    (UpdateLocked envYes exStateA exArgsB).2.2 =
      [.createChild exStateA.next_child "b" exArgsB.args,
       .destroyChild 0,
       .forwardUpdate exStateA.next_child 7 exArgsB.args exArgsB.rest] ∧
    (UpdateLocked envYes exStateA exArgsB).2.1.child_policy =
      some exStateA.next_child ∧
    liveAfter (UpdateLocked envYes exStateA exArgsB).2.2 [0] =
      [exStateA.next_child] :=
  C1_replacement_creates_before_destroying envYes exStateA exArgsB
    ⟨"b", 7⟩ 0 rfl rfl rfl (by decide) rfl

/-- C2 counterexample: after an `UpdateLocked` (from the initial state)
whose child creation fails, the reachable state has a non-empty stored
child name and no child: the claimed biconditional is false there. -/
theorem C2_counterexample :
    (runState envNo LbState.init [Op.update exArgsB]).child_policy_name = "b" ∧
    (runState envNo LbState.init [Op.update exArgsB]).child_policy = none ∧
    ¬ ((runState envNo LbState.init [Op.update exArgsB]).child_policy_name ≠ "" ↔
       (runState envNo LbState.init [Op.update exArgsB]).child_policy ≠ none) := by
  refine ⟨rfl, rfl, ?_⟩
  intro h
  exact (h.mp (by decide)) (by decide)

/-- Helper: along any run whose update configs name non-empty child
policies, "a stored child implies a non-empty stored name" is
preserved. -/
theorem child_implies_name_preserved {C A R : Type} (env : Env C A R) :
    ∀ (ops : List (Op C A R)) (s : LbState),
      (∀ op ∈ ops, op.configNamesNonempty) →
      (s.child_policy ≠ none → s.child_policy_name ≠ "") →
      ((runState env s ops).child_policy ≠ none →
        (runState env s ops).child_policy_name ≠ "") := by
  intro ops
  induction ops with
  | nil => intro s _ hinv; exact hinv
  | cons op ops ih =>
    intro s hnames hinv
    refine ih (step env s op).1 (fun o ho => hnames o (List.mem_cons_of_mem _ ho)) ?_
    have hop : op.configNamesNonempty := hnames op (List.mem_cons_self op ops)
    cases op with
    | update args =>
      cases hsd : s.shutting_down
      · rcases hcfg : args.config with _ | dyn
        · simpa [step, UpdateLocked, hsd, hcfg] using hinv
        · have hne : (staticCastImbalancer dyn).child_policy_name ≠ "" := by
            simpa [Op.configNamesNonempty, hcfg] using hop
          rcases hc : s.child_policy with _ | old
          · cases hcr : env.canCreate (staticCastImbalancer dyn).child_policy_name args.args
            · simp [step, UpdateLocked, hsd, hcfg, hc, replaceChildAndForward, hcr]
            · simp [step, UpdateLocked, hsd, hcfg, hc, replaceChildAndForward, hcr]
              exact hne
          · by_cases hname : s.child_policy_name =
                (staticCastImbalancer dyn).child_policy_name
            · intro _
              simpa [step, UpdateLocked, hsd, hcfg, hc, hname] using hne
            · cases hcr : env.canCreate (staticCastImbalancer dyn).child_policy_name
                  args.args
              · simp [step, UpdateLocked, hsd, hcfg, hc, hname,
                  replaceChildAndForward, hcr]
              · simp [step, UpdateLocked, hsd, hcfg, hc, hname,
                  replaceChildAndForward, hcr]
                exact hne
        -- shutting down: state unchanged
      · simpa [step, UpdateLocked, hsd] using hinv
    | exitIdle => exact hinv
    | resetBackoff => exact hinv
    | shutdown => simp [step, ShutdownLocked]

/-- C2 (amended): the forward direction holds: in every state reachable
through updates whose configs name non-empty child policies, a stored
child implies a non-empty stored child name; the reverse direction fails,
because `child_policy_name_` is assigned before the creation attempt, so
after a failed creation the name stays set while no child is present. -/
theorem C2_child_implies_nonempty_name {C A R : Type} (env : Env C A R)
    (ops : List (Op C A R))
    (hnames : ∀ op ∈ ops, op.configNamesNonempty)
    (hchild : (runState env LbState.init ops).child_policy ≠ none) :
    (runState env LbState.init ops).child_policy_name ≠ "" :=
  child_implies_name_preserved env ops LbState.init hnames
    (fun h => absurd rfl h) hchild

/-- C2 witness: after a successful update naming `"a"`, a child is stored
and the stored name is non-empty. -/
theorem C2_witness :
    (runState envYes LbState.init [Op.update exArgsA]).child_policy_name ≠ "" :=
  C2_child_implies_nonempty_name envYes [Op.update exArgsA]
    (by
      intro op hop
      rcases List.mem_singleton.mp hop with rfl
      simp [Op.configNamesNonempty, exArgsA, staticCastImbalancer])
    (by decide)

end Imbalancer
